import Mathlib

/-!
Verification development for the `chatgpt` package of the
mohdfareed/chatgpt-telegram repository.

The development shallowly embeds the parts of the code that the checked
properties are about:

* `chatgpt/core.py` — the `Serializable` codec and the `Message` variant
  hierarchy (`UserMessage`, `SystemMessage`, `ToolResult`, `ModelMessage`,
  `ToolUsage`, `SummaryMessage`);
* `chatgpt/tools.py` — `ToolsManager`, `Tool`, `ToolParameter` and the
  argument-validation / error-conversion logic;
* `chatgpt/events.py` — `EventsManager._trigger` / `ModelEvent.trigger`
  capability-filtered dispatch;
* `chatgpt/model.py` — `ChatModel._run_model` / `ChatModel._use_tool`,
  the generation loop.

Modelling conventions:

* Python objects that the codec touches are modelled by `PyVal`, a deep
  embedding of the JSON-serializable Python values that can sit in a
  message's `__dict__`.  Python `str` values are quotiented by the only
  observation the code makes of them (`json.loads` probing in
  `Serializable._deserialize_value`): `PyVal.vstr s` is a string whose
  text does not parse as a serialized envelope, while
  `PyVal.vblob tag params` is a string whose text is exactly the JSON
  envelope `{"serialized_type": tag, "serialized_params": params}`.
  With this quotient `json.dumps`/`json.loads` on envelopes is the
  identity, which is how the text layer behaves on the values the
  program produces.
* `PyVal.vobj tag fields` is a live `Serializable` instance (its
  `__dict__` being `fields`), as it can occur nested inside another
  object's field before serialization.
* Python dicts are association lists (`PyDict`) with first-occurrence
  lookup; keys produced by the program are unique, and
  `dict.__setitem__` / `dict.update` are modelled by in-place update of
  the first occurrence (appending fresh keys at the end), exactly the
  insertion-order semantics of Python dicts.
* `uuid.uuid4().hex` is modelled by an explicit `fid : String` parameter
  threaded into every constructor call; whenever the claims exercise the
  constructors the generated id is either overwritten by the serialized
  id or irrelevant.
* Python exceptions are the inductive `PyErr`; machine errors such as
  `TypeError` for a missing required constructor argument are modelled
  with a representative message text.
* Numbers: `int` is `Int`; `float` appears only as an opaque payload
  (token costs) that the codec passes through unchanged, and is
  modelled by `Rat`.
-/

/-- Kinds of Python exception values raised by the embedded code. `toolError`
is `chatgpt.tools.ToolError`, `valueError`/`typeError`/`attributeError` are
the builtins. The spec refers to any error escaping deserialization as a
`DecodeError`. -/
inductive PyErr where
  | toolError (msg : String)
  | valueError (msg : String)
  | typeError (msg : String)
  | attributeError (msg : String)
  | exception (msg : String)
  deriving Repr, DecidableEq

/-- Message text of an exception, i.e. Python `str(e)`. -/
def PyErr.text : PyErr → String
  | .toolError m => m
  | .valueError m => m
  | .typeError m => m
  | .attributeError m => m
  | .exception m => m

mutual
/-- A Python value that can occur in a `Serializable` object's `__dict__` or
in a serialized parameter mapping.  See the module docstring for the string
quotient: `vstr` is a non-envelope string, `vblob` is a string holding the
JSON text of an envelope, `vobj` is a live `Serializable` instance. -/
inductive PyVal where
  | vstr (s : String)
  | vint (n : Int)
  | vfloat (q : Rat)
  | vbool (b : Bool)
  | vnone
  | vlist (xs : PyList)
  | vdict (kvs : PyDict)
  | vblob (tag : String) (params : PyDict)
  | vobj (tag : String) (fields : PyDict)

/-- A Python list of `PyVal`s. -/
inductive PyList where
  | nil
  | cons (v : PyVal) (rest : PyList)

/-- A Python dict with string keys, in insertion order. -/
inductive PyDict where
  | nil
  | cons (k : String) (v : PyVal) (rest : PyDict)
end

mutual
/-- Boolean equality on `PyVal` (structural; on the live-object constructor it
compares `__dict__`s, which is the field-equality the round-trip property
speaks about). -/
def PyVal.beq : PyVal → PyVal → Bool
  | .vstr a, .vstr b => a == b
  | .vint a, .vint b => a == b
  | .vfloat a, .vfloat b => a == b
  | .vbool a, .vbool b => a == b
  | .vnone, .vnone => true
  | .vlist a, .vlist b => PyList.beq a b
  | .vdict a, .vdict b => PyDict.beq a b
  | .vblob t a, .vblob u b => t == u && PyDict.beq a b
  | .vobj t a, .vobj u b => t == u && PyDict.beq a b
  | _, _ => false

/-- Boolean equality on `PyList`. -/
def PyList.beq : PyList → PyList → Bool
  | .nil, .nil => true
  | .cons v a, .cons w b => PyVal.beq v w && PyList.beq a b
  | _, _ => false

/-- Boolean equality on `PyDict` (ordered, like comparing the underlying
association lists; the dicts the program builds are compared only after
being produced in identical key order). -/
def PyDict.beq : PyDict → PyDict → Bool
  | .nil, .nil => true
  | .cons k v a, .cons l w b => k == l && PyVal.beq v w && PyDict.beq a b
  | _, _ => false
end

/-- Build a `PyDict` from an association list, in order. -/
def PyDict.ofList : List (String × PyVal) → PyDict
  | [] => .nil
  | (k, v) :: rest => .cons k v (PyDict.ofList rest)

/-- Append two dicts (used to build `__dict__`s whose key sets are disjoint
by construction). -/
def PyDict.append : PyDict → PyDict → PyDict
  | .nil, d => d
  | .cons k v rest, d => .cons k v (PyDict.append rest d)

/-- First-occurrence lookup, Python `d[k]` / `d.get(k)`. -/
def PyDict.lookup : PyDict → String → Option PyVal
  | .nil, _ => none
  | .cons k v rest, key => if k == key then some v else PyDict.lookup rest key

/-- Python `d[k] = v`: replace the value at the first occurrence of `k`,
or append `(k, v)` if `k` is absent. -/
def PyDict.update : PyDict → String → PyVal → PyDict
  | .nil, key, v => .cons key v .nil
  | .cons k w rest, key, v =>
      if k == key then .cons k v rest else .cons k w (PyDict.update rest key v)

/-- Python `d.update(kvs)`: apply `PyDict.update` for each pair of `kvs` in
order.  This is exactly `self.__dict__.update(kwargs)` in
`Serializable.__init__`. -/
def PyDict.updateAll : PyDict → PyDict → PyDict
  | d, .nil => d
  | d, .cons k v rest => PyDict.updateAll (PyDict.update d k v) rest

/-- Remove-and-return the first occurrence of `k`, modelling the binding of a
named constructor parameter out of `**kwargs`. -/
def PyDict.pop : PyDict → String → Option (PyVal × PyDict)
  | .nil, _ => none
  | .cons k v rest, key =>
      if k == key then some (v, rest)
      else match PyDict.pop rest key with
        | none => none
        | some (w, rest') => some (w, .cons k v rest')

/-- Bind a named parameter with a default: returns the bound value and the
remaining `**kwargs`. -/
def PyDict.popD (d : PyDict) (key : String) (dflt : PyVal) : PyVal × PyDict :=
  match PyDict.pop d key with
  | none => (dflt, d)
  | some r => r

/-- Python truthiness of a `PyVal`, as used by `if name:` in
`Message.__init__`.  Envelope strings are nonempty text, hence truthy. -/
def PyVal.truthy : PyVal → Bool
  | .vstr s => s ≠ ""
  | .vint n => n ≠ 0
  | .vfloat q => q ≠ 0
  | .vbool b => b
  | .vnone => false
  | .vlist .nil => false
  | .vlist _ => true
  | .vdict .nil => false
  | .vdict _ => true
  | .vblob _ _ => true
  | .vobj _ _ => true

/-- Python `str.isalnum` on a character list: nonempty and all alphanumeric
(restricted to the ASCII alphanumerics of `Char.isAlphanum`; the claims only
exercise ASCII names). -/
def str_isalnum (cs : List Char) : Bool :=
  !cs.isEmpty && cs.all Char.isAlphanum

/-- The body of the name check in `Message.__init__`:
`str.isalnum(name.replace("_", ""))`.  Removing every `"_"` from a string is
filtering the underscore characters out of its character list. -/
def name_valid (s : String) : Bool :=
  str_isalnum (s.data.filter (fun c => c != '_'))

/-- Validation from `Message.__init__`:
`if name and not str.isalnum(name.replace("_", "")): raise ValueError(...)`.
A falsy name (None or the empty string) is skipped; a truthy non-string
would fail on `.replace` with an `AttributeError`; an envelope-text string
contains `{`/`"` characters and is never alphanumeric. -/
def nameCheck : PyVal → Except PyErr Unit
  | .vnone => .ok ()
  | .vstr s =>
      if s = "" then .ok ()
      else if name_valid s then .ok ()
      else .error (.valueError "Name must be alphanumeric and 1-64 characters")
  | .vblob _ _ =>
      .error (.valueError "Name must be alphanumeric and 1-64 characters")
  | v =>
      if v.truthy then .error (.attributeError "replace")
      else .ok ()

/-- The concrete `Serializable` message variants that
`Serializable._get_subclass` can resolve (searched by exact `__qualname__`
over the subclass hierarchy of `chatgpt.core`).  The development models the
message hierarchy; other subclasses (configs, tools) are outside the claims'
scope and their tags deliberately resolve to `none`, like any unknown tag. -/
inductive Variant where
  | user
  | system
  | tool_result
  | model_message
  | tool_usage
  | summary
  deriving Repr, DecidableEq

/-- Resolution of a `serialized_type` tag against the known variants,
modelling `Serializable._get_subclass(Serializable, tag)` restricted to the
message hierarchy. -/
def resolveTag : String → Option Variant
  | "UserMessage" => some .user
  | "SystemMessage" => some .system
  | "ToolResult" => some .tool_result
  | "ModelMessage" => some .model_message
  | "ToolUsage" => some .tool_usage
  | "SummaryMessage" => some .summary
  | _ => none

/-- The `__qualname__` written by `serialize` for each variant. -/
def Variant.tag : Variant → String
  | .user => "UserMessage"
  | .system => "SystemMessage"
  | .tool_result => "ToolResult"
  | .model_message => "ModelMessage"
  | .tool_usage => "ToolUsage"
  | .summary => "SummaryMessage"

/-- Tail of `Message.__init__` shared by every variant: after a leading
block `pre` of fields already set by the subclass, set `content`, `name`,
`metadata = {}`, `id = uuid4().hex`, then run
`Serializable.__init__(**kwargs)`, i.e. `self.__dict__.update(kwargs)`.
Name validation runs first, before any field is assigned. -/
def message_init (pre : PyDict) (content name : PyVal) (kwargs : PyDict)
    (fid : String) : Except PyErr PyDict :=
  match nameCheck name with
  | .error e => .error e
  | .ok _ =>
      .ok (PyDict.updateAll
        (PyDict.append pre (PyDict.ofList
          [("content", content), ("name", name),
           ("metadata", .vdict .nil), ("id", .vstr fid)]))
        kwargs)

/-- Defaults set by `ModelMessage.__init__` before it delegates to
`Message.__init__`, in assignment order. -/
def model_message_pre : PyDict :=
  PyDict.ofList
    [("finish_reason", .vstr "null"), ("prompt_tokens", .vint 0),
     ("reply_tokens", .vint 0), ("cost", .vfloat 0)]

/-- Calling a variant's constructor with keyword arguments
(`derivative(**parameters)` in `Serializable.deserialize`), producing the new
instance's `__dict__`.  Each branch mirrors the corresponding `__init__`
chain in `chatgpt/core.py`:

* `UserMessage`/`SystemMessage`: required `content`, rest to `Message`.
* `ToolResult`: required `content` and `name`.
* `ModelMessage`: required `content`; accounting defaults assigned first.
* `ToolUsage`: required `tool_name` and `args_str`, `content` defaults to
  `""`; `args_str`/`tool_name` assigned before the `ModelMessage` defaults.
* `SummaryMessage`: required `content`; its `name` attribute is a read-only
  property (the setter is a no-op, so no `name` key enters `__dict__`, but
  validation in `Message.__init__` still runs); after the super chain it
  assigns `id = "SUMMARY"` and `last_message_id = None`, overwriting
  whatever the keyword arguments restored. -/
def construct (v : Variant) (params : PyDict) (fid : String) :
    Except PyErr PyDict :=
  match v with
  | .user | .system =>
      match params.pop "content" with
      | none => .error (.typeError "missing required argument: content")
      | some (content, rest) =>
          let (name, rest) := rest.popD "name" .vnone
          message_init .nil content name rest fid
  | .tool_result =>
      match params.pop "content" with
      | none => .error (.typeError "missing required argument: content")
      | some (content, rest) =>
          match rest.pop "name" with
          | none => .error (.typeError "missing required argument: name")
          | some (name, rest) => message_init .nil content name rest fid
  | .model_message =>
      match params.pop "content" with
      | none => .error (.typeError "missing required argument: content")
      | some (content, rest) =>
          let (name, rest) := rest.popD "name" .vnone
          message_init model_message_pre content name rest fid
  | .tool_usage =>
      match params.pop "tool_name" with
      | none => .error (.typeError "missing required argument: tool_name")
      | some (tool_name, rest) =>
          match rest.pop "args_str" with
          | none => .error (.typeError "missing required argument: args_str")
          | some (args_str, rest) =>
              let (content, rest) := rest.popD "content" (.vstr "")
              let (name, rest) := rest.popD "name" .vnone
              message_init
                (PyDict.append
                  (PyDict.ofList
                    [("args_str", args_str), ("tool_name", tool_name)])
                  model_message_pre)
                content name rest fid
  | .summary =>
      match params.pop "content" with
      | none => .error (.typeError "missing required argument: content")
      | some (content, rest) =>
          let (name, rest) := rest.popD "name" .vnone
          match nameCheck name with
          | .error e => .error e
          | .ok _ =>
              let d := PyDict.updateAll
                (PyDict.ofList
                  [("content", content), ("metadata", .vdict .nil),
                   ("id", .vstr fid)])
                rest
              let d := d.update "id" (.vstr "SUMMARY")
              let d := d.update "last_message_id" .vnone
              .ok d

mutual
/-- `Serializable._serialize_value`: a live `Serializable` object becomes the
string of its envelope (`value.serialize()`), lists and dicts are mapped
element-wise, every other value — including strings that happen to look like
envelopes — passes through unchanged. -/
def serialize_value : PyVal → PyVal
  | .vobj tag fields => .vblob tag (serialize_dict fields)
  | .vlist xs => .vlist (serialize_list xs)
  | .vdict kvs => .vdict (serialize_dict kvs)
  | v => v

/-- Element-wise `_serialize_value` over a list. -/
def serialize_list : PyList → PyList
  | .nil => .nil
  | .cons v rest => .cons (serialize_value v) (serialize_list rest)

/-- Value-wise `_serialize_value` over a dict (keys unchanged). -/
def serialize_dict : PyDict → PyDict
  | .nil => .nil
  | .cons k v rest => .cons k (serialize_value v) (serialize_dict rest)
end

mutual
/-- `Serializable._deserialize_value`: a string is probed with `json.loads`;
if its text is an envelope it is recursively deserialized into a live object
(`Serializable.deserialize`, inlined here — resolve the tag, deserialize the
parameters, call the constructor), otherwise it is returned unchanged.
Lists and dicts recurse element-wise; other scalars pass through. -/
def deserialize_value (fid : String) : PyVal → Except PyErr PyVal
  | .vblob tag params =>
      match resolveTag tag with
      | none =>
          .error (.valueError ("Could not deserialize " ++ tag))
      | some v =>
          match deserialize_dict fid params with
          | .error e => .error e
          | .ok ps =>
              match construct v ps fid with
              | .error e => .error e
              | .ok fields => .ok (.vobj tag fields)
  | .vlist xs =>
      match deserialize_list fid xs with
      | .error e => .error e
      | .ok ys => .ok (.vlist ys)
  | .vdict kvs =>
      match deserialize_dict fid kvs with
      | .error e => .error e
      | .ok kvs' => .ok (.vdict kvs')
  | v => .ok v

/-- Element-wise `_deserialize_value` over a list. -/
def deserialize_list (fid : String) : PyList → Except PyErr PyList
  | .nil => .ok .nil
  | .cons v rest =>
      match deserialize_value fid v with
      | .error e => .error e
      | .ok w =>
          match deserialize_list fid rest with
          | .error e => .error e
          | .ok ws => .ok (.cons w ws)

/-- Value-wise `_deserialize_value` over a dict, as in the loop
`parameters[key] = Serializable._deserialize_value(value)`. -/
def deserialize_dict (fid : String) : PyDict → Except PyErr PyDict
  | .nil => .ok .nil
  | .cons k v rest =>
      match deserialize_value fid v with
      | .error e => .error e
      | .ok w =>
          match deserialize_dict fid rest with
          | .error e => .error e
          | .ok ws => .ok (.cons k w ws)
end

/-- A serialized envelope: the JSON text
`{"serialized_type": tag, "serialized_params": params}` produced by
`Serializable.serialize` (the `json.dumps`/`json.loads` layer is the
identity on envelopes under the string quotient). -/
structure SerializedBlob where
  tag : String
  params : PyDict

/-- A reconstructed `Serializable` instance: its concrete type and its
`__dict__`. -/
structure PyObj where
  tag : String
  fields : PyDict

/-- `Serializable.serialize` applied to a live object: the envelope holding
the type's qualified name and the value-wise serialized `__dict__`. -/
def Serializable.serialize (o : PyObj) : SerializedBlob :=
  ⟨o.tag, serialize_dict o.fields⟩

/-- `Serializable.deserialize`: resolve the tag against the known variants
(`ValueError` if it resolves to none), deserialize each parameter value,
then call the resolved constructor with the parameter mapping; any error the
constructor raises propagates. -/
def Serializable.deserialize (b : SerializedBlob) (fid : String) :
    Except PyErr PyObj :=
  match resolveTag b.tag with
  | none => .error (.valueError ("Could not deserialize " ++ b.tag))
  | some v =>
      match deserialize_dict fid b.params with
      | .error e => .error e
      | .ok ps =>
          match construct v ps fid with
          | .error e => .error e
          | .ok fields => .ok ⟨b.tag, fields⟩

mutual
/-- A value is envelope-free when it contains no envelope-shaped string and
no live object: on such values the codec's value transformers are the
identity.  The values the program stores in message fields (contents, names,
ids, argument strings, token counts, costs, string-to-string metadata) are
envelope-free. -/
def env_free : PyVal → Bool
  | .vblob _ _ => false
  | .vobj _ _ => false
  | .vlist xs => env_free_list xs
  | .vdict kvs => env_free_dict kvs
  | _ => true

/-- Envelope-freeness of every element of a list. -/
def env_free_list : PyList → Bool
  | .nil => true
  | .cons v rest => env_free v && env_free_list rest

/-- Envelope-freeness of every value of a dict. -/
def env_free_dict : PyDict → Bool
  | .nil => true
  | .cons _ v rest => env_free v && env_free_dict rest
end

mutual
/-- Serialization leaves an envelope-free value unchanged. -/
theorem serialize_value_env_free (v : PyVal) (h : env_free v = true) :
    serialize_value v = v :=
  match v with
  | .vstr _ | .vint _ | .vfloat _ | .vbool _ | .vnone => rfl
  | .vblob _ _ => by simp [env_free] at h
  | .vobj _ _ => by simp [env_free] at h
  | .vlist xs => by
      simp only [env_free] at h
      simp [serialize_value, serialize_list_env_free xs h]
  | .vdict kvs => by
      simp only [env_free] at h
      simp [serialize_value, serialize_dict_env_free kvs h]

/-- Serialization leaves an envelope-free list unchanged. -/
theorem serialize_list_env_free (xs : PyList) (h : env_free_list xs = true) :
    serialize_list xs = xs :=
  match xs with
  | .nil => rfl
  | .cons v rest => by
      simp only [env_free_list, Bool.and_eq_true] at h
      simp [serialize_list, serialize_value_env_free v h.1,
        serialize_list_env_free rest h.2]

/-- Serialization leaves an envelope-free dict unchanged. -/
theorem serialize_dict_env_free (kvs : PyDict)
    (h : env_free_dict kvs = true) : serialize_dict kvs = kvs :=
  match kvs with
  | .nil => rfl
  | .cons k v rest => by
      simp only [env_free_dict, Bool.and_eq_true] at h
      simp [serialize_dict, serialize_value_env_free v h.1,
        serialize_dict_env_free rest h.2]
end

mutual
/-- Deserialization returns an envelope-free value unchanged. -/
theorem deserialize_value_env_free (fid : String) (v : PyVal)
    (h : env_free v = true) : deserialize_value fid v = .ok v :=
  match v with
  | .vstr _ | .vint _ | .vfloat _ | .vbool _ | .vnone => rfl
  | .vblob _ _ => by simp [env_free] at h
  | .vobj _ _ => by simp [env_free] at h
  | .vlist xs => by
      simp only [env_free] at h
      simp [deserialize_value, deserialize_list_env_free fid xs h]
  | .vdict kvs => by
      simp only [env_free] at h
      simp [deserialize_value, deserialize_dict_env_free fid kvs h]

/-- Deserialization returns an envelope-free list unchanged. -/
theorem deserialize_list_env_free (fid : String) (xs : PyList)
    (h : env_free_list xs = true) : deserialize_list fid xs = .ok xs :=
  match xs with
  | .nil => rfl
  | .cons v rest => by
      simp only [env_free_list, Bool.and_eq_true] at h
      simp [deserialize_list, deserialize_value_env_free fid v h.1,
        deserialize_list_env_free fid rest h.2]

/-- Deserialization returns an envelope-free dict unchanged. -/
theorem deserialize_dict_env_free (fid : String) (kvs : PyDict)
    (h : env_free_dict kvs = true) : deserialize_dict fid kvs = .ok kvs :=
  match kvs with
  | .nil => rfl
  | .cons k v rest => by
      simp only [env_free_dict, Bool.and_eq_true] at h
      simp [deserialize_dict, deserialize_value_env_free fid v h.1,
        deserialize_dict_env_free fid rest h.2]
end

/-- Common envelope fields shared by every message
(`Message.__init__`): content, optional sender name, metadata mapping,
unique id.  Metadata is typed `dict[str, str]` in the source but nothing
enforces flatness, so values are arbitrary `PyVal`s here. -/
structure MsgCore where
  content : String
  name : Option String
  metadata : PyDict
  id : String

/-- Accounting fields of `ModelMessage.__init__`.  `finish_reason` is a
`FinishReason`, a `StrEnum` whose instances are the strings `"stop"`,
`"function_call"`, `"length"`, `"content_filter"`, `"canceled"`, `"null"`. -/
structure ModelAcc where
  finish_reason : String
  prompt_tokens : Int
  reply_tokens : Int
  cost : Rat

/-- The message variants of `chatgpt/core.py`, as typed data.  `summary` has
no `name` entry in its `__dict__` (the attribute is a property) and carries
the `last_message_id` back-reference. -/
inductive Msg where
  | user (core : MsgCore)
  | system (core : MsgCore)
  | tool_result (core : MsgCore)
  | model_message (core : MsgCore) (acc : ModelAcc)
  | tool_usage (core : MsgCore) (acc : ModelAcc)
      (tool_name : String) (args_str : String)
  | summary (content : String) (metadata : PyDict) (id : String)
      (last_message_id : Option Int)

/-- The `PyVal` stored for an optional string attribute. -/
def optStr : Option String → PyVal
  | none => .vnone
  | some s => .vstr s

/-- The `PyVal` stored for an optional int attribute. -/
def optInt : Option Int → PyVal
  | none => .vnone
  | some n => .vint n

/-- `__dict__` entries written by `Message.__init__`, in assignment order. -/
def coreFields (c : MsgCore) : PyDict :=
  PyDict.ofList
    [("content", .vstr c.content), ("name", optStr c.name),
     ("metadata", .vdict c.metadata), ("id", .vstr c.id)]

/-- `__dict__` entries written by `ModelMessage.__init__` before the super
call, in assignment order. -/
def accFields (a : ModelAcc) : PyDict :=
  PyDict.ofList
    [("finish_reason", .vstr a.finish_reason),
     ("prompt_tokens", .vint a.prompt_tokens),
     ("reply_tokens", .vint a.reply_tokens), ("cost", .vfloat a.cost)]

/-- The variant tag of a message, i.e. `type(self).__qualname__`. -/
def Msg.variant : Msg → Variant
  | .user _ => .user
  | .system _ => .system
  | .tool_result _ => .tool_result
  | .model_message _ _ => .model_message
  | .tool_usage _ _ _ _ => .tool_usage
  | .summary _ _ _ _ => .summary

/-- The `__dict__` of a message instance, in the insertion order its
constructor chain produces. -/
def Msg.fields : Msg → PyDict
  | .user c | .system c | .tool_result c => coreFields c
  | .model_message c a => PyDict.append (accFields a) (coreFields c)
  | .tool_usage c a tn as =>
      PyDict.append
        (PyDict.ofList [("args_str", .vstr as), ("tool_name", .vstr tn)])
        (PyDict.append (accFields a) (coreFields c))
  | .summary content metadata id lid =>
      PyDict.ofList
        [("content", .vstr content), ("metadata", .vdict metadata),
         ("id", .vstr id), ("last_message_id", optInt lid)]

/-- The live object a message denotes. -/
def Msg.obj (m : Msg) : PyObj := ⟨m.variant.tag, m.fields⟩

/-- `Serializable.serialize` on a message. -/
def Msg.serialize (m : Msg) : SerializedBlob := Serializable.serialize m.obj

/-- Metadata of a message (the only field whose values are unconstrained). -/
def Msg.metadata : Msg → PyDict
  | .user c | .system c | .tool_result c | .model_message c _
  | .tool_usage c _ _ _ => c.metadata
  | .summary _ md _ _ => md

/-- Name of a message, as validated at construction. -/
def Msg.name : Msg → Option String
  | .user c | .system c | .tool_result c | .model_message c _
  | .tool_usage c _ _ _ => c.name
  | .summary _ _ _ _ => none

/-- A name passes `Message.__init__`'s validation: absent or empty (falsy)
or alphanumeric-with-underscores.  Every constructible message satisfies
this for its own name. -/
def name_ok : Option String → Bool
  | none => true
  | some s => s == "" || name_valid s

/-- The image of a message under a serialize/deserialize round trip:
identical for every variant except `SummaryMessage`, whose constructor
reassigns `id = "SUMMARY"` and `last_message_id = None` after restoring the
keyword arguments. -/
def Msg.roundTripImage : Msg → Msg
  | .summary content metadata _ _ => .summary content metadata "SUMMARY" none
  | m => m

/-- Optional-string fields are envelope-free. -/
theorem env_free_optStr (n : Option String) : env_free (optStr n) = true := by
  cases n <;> rfl

/-- Optional-int fields are envelope-free. -/
theorem env_free_optInt (n : Option Int) : env_free (optInt n) = true := by
  cases n <;> rfl

/-- A name satisfying the constructor invariant passes `nameCheck`. -/
theorem nameCheck_optStr (n : Option String) (h : name_ok n = true) :
    nameCheck (optStr n) = .ok () := by
  cases n with
  | none => rfl
  | some s =>
      simp only [name_ok, Bool.or_eq_true, beq_iff_eq] at h
      simp only [optStr, nameCheck]
      rcases h with h | h
      · simp [h]
      · by_cases hs : s = "" <;> simp [hs, h]

/-- A message whose metadata is envelope-free has an envelope-free
`__dict__`: every other field is a string, number or `None`. -/
theorem msg_fields_env_free (m : Msg) (h : env_free_dict m.metadata = true) :
    env_free_dict m.fields = true := by
  cases m <;>
    simp_all [Msg.fields, Msg.metadata, coreFields, accFields, PyDict.ofList,
      PyDict.append, env_free_dict, env_free, env_free_optStr, env_free_optInt]

/-- C1 (amended).  Round trip of the codec over every message variant: for
a message whose name satisfies the constructor invariant and whose string
fields and metadata values are not themselves serialized-envelope text,
`deserialize(serialize(m))` succeeds and reconstructs an object field-equal
to `m` — including nested tool-usage argument strings, finish reason,
token/cost accounting fields and metadata mappings of arbitrary depth —
except for `SummaryMessage`: its constructor reassigns `id = "SUMMARY"` and
`last_message_id = None` after restoring the serialized fields, so the
reconstructed summary differs from the original whenever
`last_message_id ≠ None` (and whenever `id ≠ "SUMMARY"`). -/
theorem C1_round_trip (m : Msg) (fid : String)
    (h1 : env_free_dict m.metadata = true) (h2 : name_ok m.name = true) :
    Serializable.deserialize m.serialize fid = .ok (Msg.roundTripImage m).obj := by
  have hf := msg_fields_env_free m h1
  have hs : m.serialize = ⟨m.variant.tag, m.fields⟩ := by
    simp [Msg.serialize, Serializable.serialize, Msg.obj,
      serialize_dict_env_free _ hf]
  rw [hs]
  cases m with
  | user c =>
      obtain ⟨ct, n, md, i⟩ := c
      have hnc := nameCheck_optStr n h2
      unfold Serializable.deserialize
      rw [show resolveTag (Msg.user ⟨ct, n, md, i⟩).variant.tag = some .user from rfl]
      rw [deserialize_dict_env_free fid _ hf]
      simp [construct, Msg.fields, coreFields, PyDict.ofList, PyDict.pop,
        PyDict.popD, message_init, PyDict.append, PyDict.updateAll,
        PyDict.update, hnc, Msg.roundTripImage, Msg.obj, Msg.variant,
        Variant.tag]
  | system c =>
      obtain ⟨ct, n, md, i⟩ := c
      have hnc := nameCheck_optStr n h2
      unfold Serializable.deserialize
      rw [show resolveTag (Msg.system ⟨ct, n, md, i⟩).variant.tag = some .system from rfl]
      rw [deserialize_dict_env_free fid _ hf]
      simp [construct, Msg.fields, coreFields, PyDict.ofList, PyDict.pop,
        PyDict.popD, message_init, PyDict.append, PyDict.updateAll,
        PyDict.update, hnc, Msg.roundTripImage, Msg.obj, Msg.variant,
        Variant.tag]
  | tool_result c =>
      obtain ⟨ct, n, md, i⟩ := c
      have hnc := nameCheck_optStr n h2
      unfold Serializable.deserialize
      rw [show resolveTag (Msg.tool_result ⟨ct, n, md, i⟩).variant.tag =
        some .tool_result from rfl]
      rw [deserialize_dict_env_free fid _ hf]
      simp [construct, Msg.fields, coreFields, PyDict.ofList, PyDict.pop,
        PyDict.popD, message_init, PyDict.append, PyDict.updateAll,
        PyDict.update, hnc, Msg.roundTripImage, Msg.obj, Msg.variant,
        Variant.tag]
  | model_message c a =>
      obtain ⟨ct, n, md, i⟩ := c
      obtain ⟨fr, pt, rt, co⟩ := a
      have hnc := nameCheck_optStr n h2
      unfold Serializable.deserialize
      rw [show resolveTag (Msg.model_message ⟨ct, n, md, i⟩ ⟨fr, pt, rt, co⟩).variant.tag =
        some .model_message from rfl]
      rw [deserialize_dict_env_free fid _ hf]
      simp [construct, Msg.fields, coreFields, accFields, PyDict.ofList,
        PyDict.pop, PyDict.popD, message_init, model_message_pre,
        PyDict.append, PyDict.updateAll, PyDict.update, hnc,
        Msg.roundTripImage, Msg.obj, Msg.variant, Variant.tag]
  | tool_usage c a tn as =>
      obtain ⟨ct, n, md, i⟩ := c
      obtain ⟨fr, pt, rt, co⟩ := a
      have hnc := nameCheck_optStr n h2
      unfold Serializable.deserialize
      rw [show resolveTag (Msg.tool_usage ⟨ct, n, md, i⟩ ⟨fr, pt, rt, co⟩ tn as).variant.tag =
        some .tool_usage from rfl]
      rw [deserialize_dict_env_free fid _ hf]
      simp [construct, Msg.fields, coreFields, accFields, PyDict.ofList,
        PyDict.pop, PyDict.popD, message_init, model_message_pre,
        PyDict.append, PyDict.updateAll, PyDict.update, hnc,
        Msg.roundTripImage, Msg.obj, Msg.variant, Variant.tag]
  | summary ct md i lid =>
      unfold Serializable.deserialize
      rw [show resolveTag (Msg.summary ct md i lid).variant.tag =
        some .summary from rfl]
      rw [deserialize_dict_env_free fid _ hf]
      simp [construct, Msg.fields, PyDict.ofList, PyDict.pop, PyDict.popD,
        message_init, nameCheck, PyDict.append, PyDict.updateAll,
        PyDict.update, Msg.roundTripImage, Msg.obj, Msg.variant, Variant.tag,
        optInt, optStr]

/-- C1 counterexample.  The claim as stated fails on `SummaryMessage`: a
summary whose `last_message_id` is `5` serializes and deserializes
successfully, but the reconstructed object carries `last_message_id = None`
— its fields are not equal to the original's. -/
theorem C1_summary_not_field_equal :
    Serializable.deserialize
        (Msg.summary "digest" .nil "SUMMARY" (some 5)).serialize "f" =
      .ok ⟨"SummaryMessage", (Msg.summary "digest" .nil "SUMMARY" none).fields⟩
    ∧ PyDict.beq (Msg.summary "digest" .nil "SUMMARY" (some 5)).fields
        (Msg.summary "digest" .nil "SUMMARY" none).fields = false :=
  ⟨rfl, rfl⟩

/-- C1 witness.  The amended round trip evaluated at a concrete tool-usage
message with nested metadata. -/
theorem C1_round_trip_witness :
    env_free_dict (Msg.tool_usage
        ⟨"", some "tool_1",
         PyDict.ofList [("depth1", .vdict (PyDict.ofList [("depth2", .vstr "x")]))],
         "id9"⟩
        ⟨"function_call", 3, 4, (1 : Rat) / 2⟩ "weather"
        "\x7b\x22city\x22: \x22Paris\x22\x7d").metadata = true
    ∧ Serializable.deserialize
        (Msg.tool_usage
          ⟨"", some "tool_1",
           PyDict.ofList [("depth1", .vdict (PyDict.ofList [("depth2", .vstr "x")]))],
           "id9"⟩
          ⟨"function_call", 3, 4, (1 : Rat) / 2⟩ "weather"
          "\x7b\x22city\x22: \x22Paris\x22\x7d").serialize "f" =
      .ok (Msg.roundTripImage
        (Msg.tool_usage
          ⟨"", some "tool_1",
           PyDict.ofList [("depth1", .vdict (PyDict.ofList [("depth2", .vstr "x")]))],
           "id9"⟩
          ⟨"function_call", 3, 4, (1 : Rat) / 2⟩ "weather"
          "\x7b\x22city\x22: \x22Paris\x22\x7d")).obj :=
  ⟨rfl, C1_round_trip _ "f" rfl rfl⟩

/-- C9.  `Serializable.deserialize` fails with an error (the spec's
`DecodeError`; concretely the `ValueError` raised at line 53 of
`chatgpt/core.py`) whenever the serialized type tag resolves to no known
variant, and propagates the constructor's error whenever the resolved
constructor rejects the reconstructed field mapping. -/
theorem C9_deserialize_failure :
    (∀ (b : SerializedBlob) (fid : String), resolveTag b.tag = none →
      Serializable.deserialize b fid =
        .error (.valueError ("Could not deserialize " ++ b.tag)))
    ∧ (∀ (b : SerializedBlob) (v : Variant) (ps : PyDict) (fid : String)
        (e : PyErr), resolveTag b.tag = some v →
        deserialize_dict fid b.params = .ok ps →
        construct v ps fid = .error e →
        Serializable.deserialize b fid = .error e) := by
  constructor
  · intro b fid h
    unfold Serializable.deserialize
    rw [h]
  · intro b v ps fid e h1 h2 h3
    unfold Serializable.deserialize
    rw [h1, h2]
    simp [h3]

/-- C9 witness.  A blob with the unknown tag `"Bogus"` fails to resolve, and
a `UserMessage` blob missing its required `content` argument is rejected by
the constructor; in both cases deserialization returns the error. -/
theorem C9_deserialize_failure_witness :
    Serializable.deserialize ⟨"Bogus", .nil⟩ "f" =
      .error (.valueError "Could not deserialize Bogus")
    ∧ Serializable.deserialize ⟨"UserMessage", .nil⟩ "f" =
      .error (.typeError "missing required argument: content") :=
  ⟨C9_deserialize_failure.1 ⟨"Bogus", .nil⟩ "f" rfl,
   C9_deserialize_failure.2 ⟨"UserMessage", .nil⟩ .user .nil "f"
     (.typeError "missing required argument: content") rfl rfl rfl⟩

/-- Minimal keyword arguments for a direct constructor call of each variant,
carrying a given `name` argument and placeholder values for the required
positional parameters. -/
def baseParams (v : Variant) (name : PyVal) : PyDict :=
  match v with
  | .user | .system | .tool_result | .model_message | .summary =>
      PyDict.ofList [("content", .vstr "hi"), ("name", name)]
  | .tool_usage =>
      PyDict.ofList
        [("tool_name", .vstr "t"), ("args_str", .vstr ""), ("name", name)]

/-- Direct construction of a message of variant `v` with sender name `name`,
e.g. `UserMessage("hi", name="a b")`. -/
def constructWithName (v : Variant) (name : PyVal) (fid : String) :
    Except PyErr PyDict :=
  construct v (baseParams v name) fid

/-- A string containing a character that is neither alphanumeric nor an
underscore never passes the validation check of `Message.__init__`. -/
theorem name_valid_eq_false (s : String) (c : Char) (hc : c ∈ s.data)
    (h1 : ¬ c.isAlphanum) (h2 : c ≠ '_') : name_valid s = false := by
  have hmem : c ∈ s.data.filter (fun c => c != '_') :=
    List.mem_filter.mpr ⟨hc, by simp [h2]⟩
  rcases hall : (s.data.filter (fun c => c != '_')).all Char.isAlphanum with _ | _
  · simp [name_valid, str_isalnum, hall]
  · exact absurd (List.all_eq_true.mp hall c hmem) h1

/-- Helper for C8: the validation outcome of constructing a message of any
variant with a string name depends only on the name's shape: it succeeds
exactly when the name is empty (falsy, skipped) or passes the
underscore-stripped alphanumeric check.  In particular no length bound is
applied. -/
theorem constructWithName_isOk (v : Variant) (s : String) (fid : String) :
    (constructWithName v (.vstr s) fid).isOk = (s == "" || name_valid s) := by
  cases v <;> by_cases hs : s = "" <;> by_cases hv : name_valid s = true <;>
    simp [constructWithName, baseParams, construct, PyDict.ofList,
      PyDict.pop, PyDict.popD, message_init, nameCheck, PyDict.append,
      PyDict.updateAll, PyDict.update, model_message_pre, Except.isOk,
      Except.toBool, hs, hv]

/-- C8 (amended).  Name validation in `Message.__init__`: constructing any
message variant with a name containing a character that is neither
alphanumeric nor an underscore fails with the `ValueError` of line 224 of
`chatgpt/core.py`; name `"tool_1"` succeeds; name `None` succeeds; and in
general a string name is accepted exactly when it is empty (falsy, skipped)
or its underscore-stripped form is nonempty and alphanumeric — the
documented 1–64-character length bound is not enforced. -/
theorem C8_name_validation :
    (∀ (v : Variant) (s fid : String) (c : Char), c ∈ s.data →
      ¬ c.isAlphanum → c ≠ '_' →
      constructWithName v (.vstr s) fid =
        .error (.valueError "Name must be alphanumeric and 1-64 characters"))
    ∧ (∀ (v : Variant) (fid : String),
        (constructWithName v (.vstr "tool_1") fid).isOk = true)
    ∧ (∀ (v : Variant) (fid : String),
        (constructWithName v .vnone fid).isOk = true)
    ∧ (∀ (v : Variant) (s fid : String),
        (constructWithName v (.vstr s) fid).isOk = (s == "" || name_valid s)) := by
  refine ⟨?_, ?_, ?_, constructWithName_isOk⟩
  · intro v s fid c hc h1 h2
    have hs : s ≠ "" := by
      intro h
      subst h
      simp at hc
    have hv := name_valid_eq_false s c hc h1 h2
    cases v <;>
      simp [constructWithName, baseParams, construct, PyDict.ofList,
        PyDict.pop, PyDict.popD, message_init, nameCheck, hs, hv]
  · intro v fid
    rw [constructWithName_isOk]
    decide
  · intro v fid
    cases v <;> rfl

/-- C8 counterexample.  The claim's length bound is not enforced: a name of
65 alphanumeric characters is accepted by the constructor, although the
claim requires construction to fail for any present name longer than 64
characters. -/
theorem C8_long_name_accepted :
    (String.mk (List.replicate 65 'a')).length = 65
    ∧ (constructWithName .user
        (.vstr (String.mk (List.replicate 65 'a'))) "f").isOk = true := by
  constructor
  · decide
  · rfl

/-- C8 witness.  The validation theorem evaluated at the claim's own
examples: `name="a b"` fails, `name="tool_1"` succeeds, `name=None`
succeeds, for a concrete `UserMessage` construction. -/
theorem C8_name_validation_witness :
    constructWithName .user (.vstr "a b") "f" =
      .error (.valueError "Name must be alphanumeric and 1-64 characters")
    ∧ (constructWithName .user (.vstr "tool_1") "f").isOk = true
    ∧ (constructWithName .user .vnone "f").isOk = true :=
  ⟨C8_name_validation.1 .user "a b" "f" ' ' (by decide) (by decide) (by decide),
   C8_name_validation.2.1 .user "f",
   C8_name_validation.2.2.1 .user "f"⟩

/-- The `FinishReason` enumeration of `chatgpt/core.py` (a `StrEnum` whose
values are `"stop"`, `"function_call"`, `"length"`, `"content_filter"`,
`"canceled"`, `"null"`). -/
inductive FinishReason where
  | DONE
  | TOOL_USE
  | LIMIT_REACHED
  | FILTERED
  | CANCELLED
  | UNDEFINED
  deriving Repr, DecidableEq

/-- A reply produced by one generation pass, as observed by the
orchestration loop of `chatgpt/model.py`: a `ModelMessage`, possibly the
`ToolUsage` subclass.  `is_tool_usage` is `isinstance(reply, ToolUsage)`;
`args` is the outcome of evaluating the lazy `ToolUsage.arguments` property
(`json.loads(args_str or "{}")`): the parsed keyword mapping, or the error
raised for malformed JSON text — the `json` library itself is external, so
the parse is modelled by its outcome. -/
structure Reply where
  is_tool_usage : Bool
  finish_reason : FinishReason
  content : String
  tool_name : String
  args : Except PyErr (List (String × PyVal))

/-- Declared parameter of a tool (`ToolParameter` in `chatgpt/tools.py`). -/
structure ToolParameter where
  type : String
  name : String
  description : Option String
  enum : Option (List String)
  optional : Bool

/-- Outcome of awaiting a tool body (`Tool._run`) or of `Tool.use`: a string
result, a cooperative cancellation (`asyncio.CancelledError` or
`KeyboardInterrupt`), or an ordinary raised exception. -/
inductive UseOutcome where
  | ok (s : String)
  | cancel
  | raise (e : PyErr)

/-- A registered tool (`Tool` in `chatgpt/tools.py`): name, description,
declared parameters, and the execution body `_run` taking the keyword
arguments. -/
structure Tool where
  name : String
  description : String
  parameters : List ToolParameter
  run : List (String × PyVal) → UseOutcome

/-- `Tool._validate_params`: first raise `ToolError` on the first supplied
argument that is not a declared parameter name, then on the first
non-optional declared parameter that was not supplied. -/
def Tool.validate_params (t : Tool) (params : List String) :
    Except PyErr Unit :=
  let possible_params := t.parameters.map (fun p => p.name)
  let required_params :=
    (t.parameters.filter (fun p => !p.optional)).map (fun p => p.name)
  match params.find? (fun p => !possible_params.contains p) with
  | some bad => .error (.toolError ("Invalid argument: " ++ bad))
  | none =>
      match required_params.find? (fun r => !params.contains r) with
      | some missing =>
          .error (.toolError ("Missing required argument: " ++ missing))
      | none => .ok ()

/-- `Tool.use`: validate the supplied keyword names, then run the body. -/
def Tool.use (t : Tool) (kwargs : List (String × PyVal)) : UseOutcome :=
  match t.validate_params (kwargs.map Prod.fst) with
  | .error e => .raise e
  | .ok _ => t.run kwargs

/-- `ToolsManager`: the fixed list of tools available for a run. -/
structure ToolsManager where
  tools : List Tool

/-- Linear scan of `ToolsManager._tool_from_name`: the first registered tool
with the requested name, else `ToolError("Tool not found: {name}")`. -/
def tool_from_name_list : List Tool → String → Except PyErr Tool
  | [], name => .error (.toolError ("Tool not found: " ++ name))
  | t :: ts, name =>
      if t.name == name then .ok t else tool_from_name_list ts name

/-- `ToolsManager._tool_from_name`. -/
def ToolsManager.tool_from_name (m : ToolsManager) (name : String) :
    Except PyErr Tool :=
  tool_from_name_list m.tools name

/-- Construction of `ToolResult(result, tool.name)` in `ToolsManager.use`:
the name is validated by `Message.__init__` (an invalid tool name would
raise out of `use`), and the new instance carries empty metadata and a
fresh id. -/
def mk_tool_result (content name fid : String) : Except PyErr MsgCore :=
  match nameCheck (.vstr name) with
  | .error e => .error e
  | .ok _ => .ok ⟨content, some name, .nil, fid⟩

/-- Value returned by `ToolsManager.use`: `None` (cancelled), a bare string
(an error message caught while no tool object was resolved), or a
`ToolResult` instance wrapping the result. -/
inductive UseVal where
  | none
  | raw (s : String)
  | result (r : MsgCore)

/-- Whether a returned value is a wrapped `ToolResult` instance
(`isinstance(results, ToolResult)` in `ChatModel._use_tool`). -/
def UseVal.isToolResult : UseVal → Bool
  | .result _ => true
  | _ => false

/-- `ToolsManager.use`, mirroring the `try`/`except` structure: resolve the
tool (a lookup `ToolError` is caught by `except Exception` with `tool` still
`None`, so its text is returned bare); evaluate `usage.arguments` (a JSON
error is likewise caught, but the tool is resolved, so the text is
wrapped); run `Tool.use` (cancellation is swallowed leaving `result =
None`; any other exception's text becomes the result).  A non-`None` result
with a resolved tool is wrapped as `ToolResult(result, tool.name)`, whose
construction happens outside the `try` and can itself raise. -/
def ToolsManager.use (m : ToolsManager) (usage : Reply) (fid : String) :
    Except PyErr UseVal :=
  match m.tool_from_name usage.tool_name with
  | .error e => .ok (.raw e.text)
  | .ok tool =>
      match usage.args with
      | .error e =>
          match mk_tool_result e.text tool.name fid with
          | .error e2 => .error e2
          | .ok r => .ok (.result r)
      | .ok kwargs =>
          match tool.use kwargs with
          | .cancel => .ok .none
          | .raise e =>
              match mk_tool_result e.text tool.name fid with
              | .error e2 => .error e2
              | .ok r => .ok (.result r)
          | .ok s =>
              match mk_tool_result s tool.name fid with
              | .error e2 => .error e2
              | .ok r => .ok (.result r)

/-- A successful lookup returns a registered tool. -/
theorem tool_from_name_list_mem (ts : List Tool) (name : String) (t : Tool)
    (h : tool_from_name_list ts name = .ok t) : t ∈ ts := by
  induction ts with
  | nil => simp [tool_from_name_list] at h
  | cons hd tl ih =>
      by_cases hh : hd.name == name
      · simp [tool_from_name_list, hh] at h
        simp [h]
      · simp only [tool_from_name_list, hh, Bool.false_eq_true,
          if_false] at h
        exact List.mem_cons_of_mem hd (ih h)

/-- A failed lookup means no registered tool has the requested name, and
conversely. -/
theorem tool_from_name_list_not_found (ts : List Tool) (name : String)
    (h : ∀ t ∈ ts, t.name ≠ name) :
    tool_from_name_list ts name =
      .error (.toolError ("Tool not found: " ++ name)) := by
  induction ts with
  | nil => rfl
  | cons hd tl ih =>
      have hhd : (hd.name == name) = false := by
        simp [h hd (List.mem_cons_self hd tl)]
      simp only [tool_from_name_list, hhd, Bool.false_eq_true, if_false]
      exact ih (fun t ht => h t (List.mem_cons_of_mem hd ht))

/-- The eight event capabilities of `chatgpt/events.py`. -/
inductive EventKind where
  | model_start
  | model_generation
  | model_end
  | tool_use
  | tool_result
  | model_reply
  | model_error
  | model_interrupt
  deriving Repr, DecidableEq

/-- An observer (callback handler).  `implements k` is
`isinstance(handler, <event class of k>)`: whether the handler's class
derives the abstract event mixin for capability `k`.  `id` identifies the
handler in the recorded call list. -/
structure Handler where
  id : Nat
  implements : EventKind → Bool

/-- `ModelEvent.trigger`: invoking a capability on a handler; raises
`TypeError` when the handler does not implement the event's interface,
otherwise records the (awaited) callback invocation. -/
def ModelEvent.trigger (h : Handler) (k : EventKind) :
    Except PyErr (Nat × EventKind) :=
  if h.implements k then .ok (h.id, k)
  else .error (.typeError "Cannot trigger event on handler")

/-- `EventsManager._trigger`: walk the observer list in order; skip a
handler that is not an instance of the event's class; otherwise await
`ModelEvent.trigger` to completion before moving to the next handler.  The
returned list records the callback invocations in the order they were
awaited (dispatch is sequential, so this order is the handler-list
order). -/
def EventsManager.trigger : List Handler → EventKind →
    Except PyErr (List (Nat × EventKind))
  | [], _ => .ok []
  | h :: hs, k =>
      if h.implements k then
        match ModelEvent.trigger h k with
        | .error e => .error e
        | .ok c =>
            match EventsManager.trigger hs k with
            | .error e => .error e
            | .ok cs => .ok (c :: cs)
      else EventsManager.trigger hs k

/-- Conversation memory entries appended by the loop
(`memory.chat_history.add_message`; the memory collaborator itself is the
append-only store of the spec's §6). -/
inductive Entry where
  | userE (content : String)
  | replyE (r : Reply)
  | toolResultE (r : MsgCore)

/-- Events triggered by `ChatModel._run_model` / `ChatModel._use_tool`
themselves (the remaining lifecycle events are triggered inside the
streaming client wrapper, outside this loop). -/
inductive Event where
  | tool_use (u : Reply)
  | tool_result (r : MsgCore)
  | model_reply (r : Reply)

/-- Whether an event is a `tool_use` event. -/
def Event.isToolUse : Event → Bool
  | .tool_use _ => true
  | _ => false

/-- Whether an event is a `tool_result` event. -/
def Event.isToolResult : Event → Bool
  | .tool_result _ => true
  | _ => false

/-- Whether an event is a `model_reply` event. -/
def Event.isModelReply : Event → Bool
  | .model_reply _ => true
  | _ => false

/-- Modelled from the spec: `OpenAIModel._cancelable` (`chatgpt/openai.py`
is not under `src/`) awaits a coroutine as a cancelable task; if the run is
interrupted while suspended on it, the await produces no result (`None`),
otherwise it produces the coroutine's outcome (§4.4: "execute via
ToolsManager as a cancelable task ... if cancelled mid-tool, transition to
INTERRUPTED"). -/
def cancelable (interrupted : Bool) (x : Except PyErr UseVal) :
    Except PyErr UseVal :=
  if interrupted then .ok .none else x

/-- `ChatModel._use_tool` given the value produced by
`await self._cancelable(self.tools_manager.use(usage))`: trigger `tool_use`
first; then, only if the value is a `ToolResult` instance, trigger
`tool_result` and append it to memory.  A `None` (cancelled) or bare-string
value triggers nothing further and appends nothing. -/
def ChatModel.use_tool (usage : Reply) (uv : UseVal) (mem : List Entry)
    (trace : List Event) : List Entry × List Event :=
  let trace' := trace ++ [Event.tool_use usage]
  match uv with
  | .result r => (mem ++ [Entry.toolResultE r], trace' ++ [Event.tool_result r])
  | _ => (mem, trace')

/-- The `while True` loop of `ChatModel._run_model`, driven by a script of
generation passes: each element of the script is the reply returned by
`await self._generate_reply(...)` (`None` when generation produced
nothing), paired with the value of `self._running` read at the branch
(both produced by the streaming wrapper in `chatgpt/openai.py`, which is
not under `src/`; a pass's reply is spec-modelled as data).  A generated
reply is appended to memory; a `ToolUsage` reply with the model still
running dispatches the tool (`useF r` being the awaited cancelable use)
and continues; otherwise the loop breaks and, since every generated reply
is a `ModelMessage`, triggers `model_reply`.  The empty-script case is
unreachable for the scripts of interest (a run's script always ends in a
breaking pass). -/
def ChatModel.run_model_loop (useF : Reply → UseVal) :
    List (Option Reply × Bool) → List Entry → List Event →
    List Entry × List Event × Option Reply
  | [], mem, trace => (mem, trace, none)
  | (p, running) :: rest, mem, trace =>
      match p with
      | none => (mem, trace, none)
      | some r =>
          if r.is_tool_usage && running then
            match ChatModel.use_tool r (useF r) (mem ++ [Entry.replyE r]) trace with
            | (mem', trace') => ChatModel.run_model_loop useF rest mem' trace'
          else (mem ++ [Entry.replyE r], trace ++ [Event.model_reply r], some r)

/-- `ChatModel._run_model`: append the user message to memory, then run the
generation loop. -/
def ChatModel.run_model (useF : Reply → UseVal) (new_message : String)
    (script : List (Option Reply × Bool)) :
    List Entry × List Event × Option Reply :=
  ChatModel.run_model_loop useF script [Entry.userE new_message] []

/-- The memory entries appended while handling one tool-usage pass. -/
def toolPassEntries (r : Reply) (uv : UseVal) : List Entry :=
  match uv with
  | .result tr => [Entry.replyE r, Entry.toolResultE tr]
  | _ => [Entry.replyE r]

/-- The events triggered while handling one tool-usage pass, i.e. between
the end of that generation pass and the start of the next one. -/
def toolPassEvents (r : Reply) (uv : UseVal) : List Event :=
  match uv with
  | .result tr => [Event.tool_use r, Event.tool_result tr]
  | _ => [Event.tool_use r]

/-- Helper: `find?` returns the given element when it is in the list, tests
true, and every other element tests false. -/
theorem find?_eq_some_unique {α} (l : List α) (p : α → Bool) (k : α)
    (hk : k ∈ l) (hpk : p k = true)
    (hothers : ∀ x ∈ l, x ≠ k → p x = false) : l.find? p = some k := by
  induction l with
  | nil => simp at hk
  | cons a as ih =>
      by_cases ha : a = k
      · subst ha
        simp [List.find?, hpk]
      · have hpa : p a = false := hothers a (List.mem_cons_self a as) ha
        have hk' : k ∈ as := by
          rcases List.mem_cons.mp hk with h | h
          · exact absurd h.symm ha
          · exact h
        simp only [List.find?, hpa]
        exact ih hk' (fun x hx hxk => hothers x (List.mem_cons_of_mem a hx) hxk)

/-- Helper for C7: `EventsManager._trigger` dispatches exactly to the
observers implementing the capability, in observer-list order, and never
raises. -/
theorem trigger_eq_filter (handlers : List Handler) (k : EventKind) :
    EventsManager.trigger handlers k =
      .ok ((handlers.filter (fun h => h.implements k)).map (fun h => (h.id, k))) := by
  induction handlers with
  | nil => rfl
  | cons h hs ih =>
      by_cases hi : h.implements k = true
      · simp [EventsManager.trigger, ModelEvent.trigger, hi, ih, List.filter]
      · simp only [Bool.not_eq_true] at hi
        simp [EventsManager.trigger, hi, ih, List.filter]

/-- C7.  Event dispatch: for every trigger, `EventsManager._trigger` invokes,
in observer-list order, exactly the observers implementing that capability
(the returned call list records the awaited invocations in dispatch order;
dispatch is a sequential fold, each callback awaited before the next), and
it returns normally — a non-implementing observer is skipped, never an
error.  Moreover an observer implementing only `on_tool_use` is never among
the dispatched observers of any other event kind. -/
theorem C7_capability_dispatch :
    (∀ (handlers : List Handler) (k : EventKind),
      EventsManager.trigger handlers k =
        .ok ((handlers.filter (fun h => h.implements k)).map (fun h => (h.id, k))))
    ∧ (∀ (handlers : List Handler) (k : EventKind) (h : Handler),
        (∀ k', h.implements k' = (k' == EventKind.tool_use)) →
        k ≠ .tool_use →
        h ∉ handlers.filter (fun g => g.implements k)) := by
  refine ⟨trigger_eq_filter, ?_⟩
  intro handlers k h himpl hk hmem
  have h1 : h.implements k = true := (List.mem_filter.mp hmem).2
  rw [himpl k] at h1
  exact hk (by simpa using h1)

/-- C7 witness.  Dispatching `model_reply` over an observer implementing
only `on_tool_use` and an observer implementing everything invokes only the
latter, and the `on_tool_use`-only observer is not among the dispatched
observers. -/
theorem C7_capability_dispatch_witness :
    EventsManager.trigger
        [⟨0, fun k => k == .tool_use⟩, ⟨1, fun _ => true⟩] .model_reply =
      .ok [(1, EventKind.model_reply)]
    ∧ (⟨0, fun k => k == .tool_use⟩ : Handler) ∉
        ([⟨0, fun k => k == .tool_use⟩, ⟨1, fun _ => true⟩] : List Handler).filter
          (fun g => g.implements .model_reply) :=
  ⟨by rw [C7_capability_dispatch.1]; rfl,
   C7_capability_dispatch.2 _ .model_reply _ (fun k' => rfl) (by decide)⟩

/-- C2.  Finish-reason branching of the generation loop, for any run state:
the generation pass is spec-modelled (the streaming wrapper
`chatgpt/openai.py` is not under `src/`) by the coupling hypothesis that the
final message of a pass is a `ToolUsage` instance exactly when its finish
reason is `TOOL_USE`.  A pass ending `TOOL_USE` with the model still
running triggers exactly one `tool_use` event and no `model_reply` event
before the next pass begins (the events added before the loop re-enters
are `tool_use` plus at most a `tool_result`); a pass ending `DONE` breaks
the loop, triggering exactly one `model_reply` event and no `tool_use`
event. -/
theorem C2_finish_reason_branching (r : Reply)
    (rest : List (Option Reply × Bool)) (useF : Reply → UseVal)
    (mem : List Entry) (trace : List Event)
    (hc : r.is_tool_usage = (r.finish_reason == FinishReason.TOOL_USE)) :
    (r.finish_reason = .TOOL_USE →
      ChatModel.run_model_loop useF ((some r, true) :: rest) mem trace =
        ChatModel.run_model_loop useF rest (mem ++ toolPassEntries r (useF r))
          (trace ++ toolPassEvents r (useF r))
      ∧ ((toolPassEvents r (useF r)).filter Event.isToolUse).length = 1
      ∧ ((toolPassEvents r (useF r)).filter Event.isModelReply).length = 0)
    ∧ (∀ running : Bool, r.finish_reason = .DONE →
      ChatModel.run_model_loop useF ((some r, running) :: rest) mem trace =
        (mem ++ [Entry.replyE r], trace ++ [Event.model_reply r], some r)
      ∧ ((trace ++ [Event.model_reply r]).filter Event.isModelReply).length =
          (trace.filter Event.isModelReply).length + 1
      ∧ ((trace ++ [Event.model_reply r]).filter Event.isToolUse).length =
          (trace.filter Event.isToolUse).length) := by
  constructor
  · intro h
    have htu : r.is_tool_usage = true := by rw [hc, h]; rfl
    refine ⟨?_, ?_, ?_⟩
    · simp only [ChatModel.run_model_loop, htu, Bool.true_and, if_true]
      cases huv : useF r <;>
        simp [ChatModel.use_tool, toolPassEntries, toolPassEvents, huv,
          List.append_assoc]
    · cases useF r <;> rfl
    · cases useF r <;> rfl
  · intro running h
    have htu : r.is_tool_usage = false := by rw [hc, h]; rfl
    refine ⟨?_, ?_, ?_⟩
    · simp [ChatModel.run_model_loop, htu]
    · simp [List.filter_append, Event.isModelReply]
    · simp [List.filter_append, Event.isToolUse]

/-- A tool-usage reply requesting the `weather` tool. -/
def tuReply : Reply :=
  ⟨true, .TOOL_USE, "", "weather", .ok [("city", .vstr "Paris")]⟩

/-- A terminal conversational reply. -/
def doneReply : Reply :=
  ⟨false, .DONE, "sunny", "", .ok []⟩

/-- A dispatch function returning a wrapped tool result. -/
def useFc : Reply → UseVal :=
  fun _ => .result ⟨"18C, cloudy", some "weather", .nil, "fid"⟩

/-- C2 witness.  The branching theorem evaluated on a concrete two-pass run:
a `TOOL_USE` pass followed by a `DONE` pass. -/
theorem C2_finish_reason_branching_witness :
    (ChatModel.run_model_loop useFc
        ((some tuReply, true) :: [(some doneReply, true)]) [] [] =
      ChatModel.run_model_loop useFc [(some doneReply, true)]
        ([] ++ toolPassEntries tuReply (useFc tuReply))
        ([] ++ toolPassEvents tuReply (useFc tuReply))
      ∧ ((toolPassEvents tuReply (useFc tuReply)).filter Event.isToolUse).length = 1
      ∧ ((toolPassEvents tuReply (useFc tuReply)).filter Event.isModelReply).length = 0)
    ∧ (ChatModel.run_model_loop useFc ((some doneReply, true) :: []) [] [] =
      ([] ++ [Entry.replyE doneReply], [] ++ [Event.model_reply doneReply],
        some doneReply)
      ∧ (([] ++ [Event.model_reply doneReply]).filter Event.isModelReply).length =
          (([] : List Event).filter Event.isModelReply).length + 1
      ∧ (([] ++ [Event.model_reply doneReply]).filter Event.isToolUse).length =
          (([] : List Event).filter Event.isToolUse).length) :=
  ⟨(C2_finish_reason_branching tuReply [(some doneReply, true)] useFc [] []
      rfl).1 rfl,
   (C2_finish_reason_branching doneReply [] useFc [] [] rfl).2 true rfl⟩

/-- C3.  Cooperative cancellation during tool execution (the body's await
raises `asyncio.CancelledError`/`KeyboardInterrupt`, swallowed by
`ToolsManager.use`): `use` returns `None` — no `ToolResult` is synthesized —
and `ChatModel._use_tool` (whose `_cancelable` wrapper, from the
`chatgpt/openai.py` file not under `src/`, is spec-modelled as yielding
`None` on interruption and is the identity here) emits no `tool_result`
event for the usage, appends nothing to memory, and leaves every previously
appended memory entry unchanged. -/
theorem C3_cancellation_no_result (m : ToolsManager) (usage : Reply)
    (fid : String) (t : Tool) (kwargs : List (String × PyVal)) (intr : Bool)
    (mem : List Entry) (trace : List Event)
    (h1 : m.tool_from_name usage.tool_name = .ok t)
    (h2 : usage.args = .ok kwargs)
    (h3 : t.validate_params (kwargs.map Prod.fst) = .ok ())
    (h4 : t.run kwargs = .cancel) :
    ToolsManager.use m usage fid = .ok .none
    ∧ cancelable intr (ToolsManager.use m usage fid) = .ok .none
    ∧ ChatModel.use_tool usage .none mem trace =
        (mem, trace ++ [Event.tool_use usage])
    ∧ ((trace ++ [Event.tool_use usage]).filter Event.isToolResult).length =
        (trace.filter Event.isToolResult).length := by
  have huse : ToolsManager.use m usage fid = .ok .none := by
    unfold ToolsManager.use
    rw [h1, h2]
    simp [Tool.use, h3, h4]
  refine ⟨huse, ?_, rfl, ?_⟩
  · rw [huse]
    cases intr <;> rfl
  · simp [List.filter_append, Event.isToolResult]

/-- A tool whose body is cancelled mid-execution. -/
def sleepTool : Tool :=
  ⟨"sleep", "Sleeps forever.", [], fun _ => .cancel⟩

/-- A tool-usage reply requesting the `sleep` tool. -/
def sleepUsage : Reply := ⟨true, .TOOL_USE, "", "sleep", .ok []⟩

/-- C3 witness.  Cancellation evaluated on a concrete run with one prior
memory entry: `use` returns `None`, the only event emitted is `tool_use`,
and memory is exactly the prior entry. -/
theorem C3_cancellation_no_result_witness :
    ToolsManager.use ⟨[sleepTool]⟩ sleepUsage "f" = .ok .none
    ∧ cancelable false (ToolsManager.use ⟨[sleepTool]⟩ sleepUsage "f") =
        .ok .none
    ∧ ChatModel.use_tool sleepUsage .none [Entry.userE "hi"] [] =
        ([Entry.userE "hi"], [] ++ [Event.tool_use sleepUsage])
    ∧ (([] ++ [Event.tool_use sleepUsage]).filter Event.isToolResult).length =
        (([] : List Event).filter Event.isToolResult).length :=
  C3_cancellation_no_result ⟨[sleepTool]⟩ sleepUsage "f" sleepTool [] false
    [Entry.userE "hi"] [] rfl rfl rfl rfl

/-- C4 (amended).  For a `ToolUsage` whose `tool_name` matches no registered
tool, the lookup fails with `ToolError("Tool not found: {name}")`; the error
is caught inside `ToolsManager.use` and converted to its message text, and
`use` returns normally, so the loop is not aborted — but because no tool
object was resolved the text is returned as a bare string, not wrapped as a
`ToolResult`, and the orchestrator therefore emits no `tool_result` event
and appends nothing to the conversation for it. -/
theorem C4_unknown_tool_text (m : ToolsManager) (usage : Reply)
    (fid : String) (mem : List Entry) (trace : List Event)
    (h : ∀ t ∈ m.tools, t.name ≠ usage.tool_name) :
    m.tool_from_name usage.tool_name =
      .error (.toolError ("Tool not found: " ++ usage.tool_name))
    ∧ ToolsManager.use m usage fid =
        .ok (.raw ("Tool not found: " ++ usage.tool_name))
    ∧ ChatModel.use_tool usage (.raw ("Tool not found: " ++ usage.tool_name))
        mem trace = (mem, trace ++ [Event.tool_use usage]) := by
  have hl := tool_from_name_list_not_found m.tools usage.tool_name h
  refine ⟨hl, ?_, rfl⟩
  unfold ToolsManager.use
  rw [show m.tool_from_name usage.tool_name =
    .error (.toolError ("Tool not found: " ++ usage.tool_name)) from hl]
  rfl

/-- A tool-usage reply requesting the (possibly unregistered) `weather`
tool. -/
def weatherUsage : Reply := ⟨true, .TOOL_USE, "", "weather", .ok []⟩

/-- C4 counterexample.  Against the claim's wording, the caught lookup
error does not become tool-result content: on a manager with no registered
tools, `use` returns the error text as a bare string, which is not a
`ToolResult` instance (so the caller's `isinstance` check drops it). -/
theorem C4_lookup_error_returned_bare :
    ToolsManager.use ⟨[]⟩ weatherUsage "f" =
      .ok (.raw "Tool not found: weather")
    ∧ UseVal.isToolResult (.raw "Tool not found: weather") = false :=
  ⟨rfl, rfl⟩

/-- C4 witness.  The amended behaviour evaluated on the empty manager. -/
theorem C4_unknown_tool_text_witness :
    ToolsManager.tool_from_name ⟨[]⟩ "weather" =
      .error (.toolError ("Tool not found: " ++ "weather"))
    ∧ ToolsManager.use ⟨[]⟩ weatherUsage "f" =
        .ok (.raw ("Tool not found: " ++ "weather"))
    ∧ ChatModel.use_tool weatherUsage
        (.raw ("Tool not found: " ++ "weather")) [] [] =
        ([], [] ++ [Event.tool_use weatherUsage]) :=
  C4_unknown_tool_text ⟨[]⟩ weatherUsage "f" [] []
    (fun t ht => absurd ht (List.not_mem_nil t))

/-- C5.  A registered tool whose body raises an ordinary (non-cancellation)
exception: `ToolsManager.use` captures the exception's message as the
result content and returns it wrapped as a `ToolResult` tagged with the
tool's name; the raw exception does not propagate (the returned value is a
normal `.ok`).  The tool's name is assumed to pass message-name validation,
as the `ToolResult` constructor re-validates it. -/
theorem C5_exception_becomes_result (m : ToolsManager) (usage : Reply)
    (fid : String) (t : Tool) (kwargs : List (String × PyVal)) (e : PyErr)
    (h1 : m.tool_from_name usage.tool_name = .ok t)
    (h2 : usage.args = .ok kwargs)
    (h3 : t.validate_params (kwargs.map Prod.fst) = .ok ())
    (h4 : t.run kwargs = .raise e)
    (h5 : name_ok (some t.name) = true) :
    ToolsManager.use m usage fid =
      .ok (.result ⟨e.text, some t.name, .nil, fid⟩) := by
  have hnc : nameCheck (.vstr t.name) = .ok () :=
    nameCheck_optStr (some t.name) h5
  unfold ToolsManager.use
  rw [h1, h2]
  simp [Tool.use, h3, h4, mk_tool_result, hnc]

/-- A tool whose body raises an ordinary exception. -/
def boomTool : Tool :=
  ⟨"boom", "Always fails.", [], fun _ => .raise (.exception "kaboom")⟩

/-- A tool-usage reply requesting the `boom` tool. -/
def boomUsage : Reply := ⟨true, .TOOL_USE, "", "boom", .ok []⟩

/-- C5 witness.  A concrete failing tool: the exception text `"kaboom"`
comes back as the content of a `ToolResult` named `"boom"`. -/
theorem C5_exception_becomes_result_witness :
    ToolsManager.use ⟨[boomTool]⟩ boomUsage "f" =
      .ok (.result ⟨"kaboom", some "boom", .nil, "f"⟩) :=
  C5_exception_becomes_result ⟨[boomTool]⟩ boomUsage "f" boomTool []
    (.exception "kaboom") rfl rfl rfl rfl rfl

/-- C6.  Argument validation in `Tool.use`/`Tool._validate_params`:
supplying a keyword that is not a declared parameter name (all other
supplied keywords being declared) raises `ToolError("Invalid argument:
{key}")` naming that keyword; omitting a required (non-optional) parameter
while supplying only declared keywords (every other required parameter
being supplied) raises `ToolError("Missing required argument: {param}")`
naming it; and supplying exactly the required parameter names (optional
ones omitted) passes validation, so the body runs. -/
theorem C6_argument_validation :
    (∀ (t : Tool) (kwargs : List (String × PyVal)) (k : String),
      k ∈ kwargs.map Prod.fst →
      k ∉ t.parameters.map (fun p => p.name) →
      (∀ k' ∈ kwargs.map Prod.fst, k' ≠ k →
        k' ∈ t.parameters.map (fun p => p.name)) →
      t.use kwargs = .raise (.toolError ("Invalid argument: " ++ k)))
    ∧ (∀ (t : Tool) (kwargs : List (String × PyVal)) (rq : String),
      (∀ k ∈ kwargs.map Prod.fst, k ∈ t.parameters.map (fun p => p.name)) →
      rq ∈ (t.parameters.filter (fun p => !p.optional)).map (fun p => p.name) →
      rq ∉ kwargs.map Prod.fst →
      (∀ r' ∈ (t.parameters.filter (fun p => !p.optional)).map
          (fun p => p.name), r' ≠ rq → r' ∈ kwargs.map Prod.fst) →
      t.use kwargs = .raise (.toolError ("Missing required argument: " ++ rq)))
    ∧ (∀ (t : Tool) (kwargs : List (String × PyVal)),
      (∀ k, k ∈ kwargs.map Prod.fst ↔
        k ∈ (t.parameters.filter (fun p => !p.optional)).map (fun p => p.name)) →
      t.use kwargs = t.run kwargs) := by
  refine ⟨?_, ?_, ?_⟩
  · intro t kwargs k hk hnot hothers
    have hfind : (kwargs.map Prod.fst).find?
        (fun p => !(t.parameters.map (fun p => p.name)).contains p) = some k := by
      apply find?_eq_some_unique _ _ _ hk
      · simp [hnot]
      · intro x hx hxk
        simp [hothers x hx hxk]
    simp only [Tool.use, Tool.validate_params]
    rw [hfind]
  · intro t kwargs rq hsub hrq hnotin hothers
    have hfind1 : (kwargs.map Prod.fst).find?
        (fun p => !(t.parameters.map (fun p => p.name)).contains p) = none := by
      rw [List.find?_eq_none]
      intro x hx
      simp [hsub x hx]
    have hfind2 : ((t.parameters.filter (fun p => !p.optional)).map
        (fun p => p.name)).find?
        (fun r => !(kwargs.map Prod.fst).contains r) = some rq := by
      apply find?_eq_some_unique _ _ _ hrq
      · simp [hnotin]
      · intro x hx hxk
        simp [hothers x hx hxk]
    simp only [Tool.use, Tool.validate_params]
    rw [hfind1, hfind2]
  · intro t kwargs hiff
    have hfind1 : (kwargs.map Prod.fst).find?
        (fun p => !(t.parameters.map (fun p => p.name)).contains p) = none := by
      rw [List.find?_eq_none]
      intro x hx
      have hx' := (hiff x).mp hx
      rcases List.mem_map.mp hx' with ⟨q, hq, hqn⟩
      have hmem : x ∈ t.parameters.map (fun p => p.name) :=
        List.mem_map.mpr ⟨q, (List.mem_filter.mp hq).1, hqn⟩
      simp [hmem]
    have hfind2 : ((t.parameters.filter (fun p => !p.optional)).map
        (fun p => p.name)).find?
        (fun r => !(kwargs.map Prod.fst).contains r) = none := by
      rw [List.find?_eq_none]
      intro x hx
      simp [(hiff x).mpr hx]
    simp only [Tool.use, Tool.validate_params]
    rw [hfind1, hfind2]

/-- The spec's example tool: required parameter `"city"`, optional
parameter `"unit"`. -/
def weatherTool : Tool :=
  ⟨"weather", "Get the weather of a city.",
   [⟨"string", "city", none, none, false⟩,
    ⟨"string", "unit", some "temperature unit", some ["C", "F"], true⟩],
   fun _ => .ok "18C, cloudy"⟩

/-- C6 witness.  The spec's three scenarios on the weather tool: `{}` fails
naming `"city"`; `{"city": "x", "bogus": "y"}` fails naming `"bogus"`;
`{"city": "x"}` passes validation and runs the body. -/
theorem C6_argument_validation_witness :
    weatherTool.use [] =
      .raise (.toolError "Missing required argument: city")
    ∧ weatherTool.use [("city", .vstr "x"), ("bogus", .vstr "y")] =
      .raise (.toolError "Invalid argument: bogus")
    ∧ weatherTool.use [("city", .vstr "x")] =
      weatherTool.run [("city", .vstr "x")] :=
  ⟨C6_argument_validation.2.1 weatherTool [] "city" (by simp)
      (by simp [weatherTool]) (by simp) (by simp [weatherTool]),
   C6_argument_validation.1 weatherTool
      [("city", .vstr "x"), ("bogus", .vstr "y")] "bogus" (by simp)
      (by simp [weatherTool]) (by simp [weatherTool]),
   C6_argument_validation.2.2 weatherTool [("city", .vstr "x")]
      (by simp [weatherTool])⟩

/-- C10.  `ToolsManager.use` returns normally for every usage — unknown
tool name, malformed JSON argument string (`usage.args` an error), body
raising any ordinary exception, validation failure, or cancellation — all
such errors are caught inside `use`; the only assumption is that every
registered tool's name passes message-name validation (the `ToolResult`
wrapper re-validates the name outside the `try`).  When no tool object was
resolved, the caught lookup error's text is returned as a bare string, not
wrapped as a `ToolResult`. -/
theorem C10_use_returns_normally (m : ToolsManager) (usage : Reply)
    (fid : String)
    (h : ∀ t ∈ m.tools, name_ok (some t.name) = true) :
    (ToolsManager.use m usage fid).isOk = true
    ∧ ((∀ t ∈ m.tools, t.name ≠ usage.tool_name) →
        ToolsManager.use m usage fid =
          .ok (.raw ("Tool not found: " ++ usage.tool_name))) := by
  constructor
  · unfold ToolsManager.use
    cases hl : m.tool_from_name usage.tool_name with
    | error e => rfl
    | ok t =>
        have ht : t ∈ m.tools :=
          tool_from_name_list_mem m.tools usage.tool_name t hl
        have hnc : nameCheck (.vstr t.name) = .ok () :=
          nameCheck_optStr (some t.name) (h t ht)
        cases usage.args with
        | error e => simp [mk_tool_result, hnc, Except.isOk, Except.toBool]
        | ok kwargs =>
            cases hu : t.use kwargs <;>
              simp [hu, mk_tool_result, hnc, Except.isOk, Except.toBool]
  · intro hn
    unfold ToolsManager.use
    rw [show m.tool_from_name usage.tool_name =
      .error (.toolError ("Tool not found: " ++ usage.tool_name)) from
      tool_from_name_list_not_found m.tools usage.tool_name hn]
    rfl

/-- A tool-usage reply with an argument string that is not valid JSON, so
evaluating `usage.arguments` raises. -/
def badJsonUsage : Reply :=
  ⟨true, .TOOL_USE, "", "weather",
   .error (.valueError "Expecting value: line 1 column 1 (char 0)")⟩

/-- A tool-usage reply naming no registered tool. -/
def nopeUsage : Reply := ⟨true, .TOOL_USE, "", "nope", .ok []⟩

/-- C10 witness.  On a manager holding the weather tool, `use` returns
normally for a malformed-JSON usage, and returns the bare lookup-error text
for an unknown tool name. -/
theorem C10_use_returns_normally_witness :
    (ToolsManager.use ⟨[weatherTool]⟩ badJsonUsage "f").isOk = true
    ∧ ToolsManager.use ⟨[weatherTool]⟩ nopeUsage "f" =
        .ok (.raw ("Tool not found: " ++ "nope")) :=
  ⟨(C10_use_returns_normally ⟨[weatherTool]⟩ badJsonUsage "f"
      (by intro t ht; rw [List.mem_singleton] at ht; subst ht; decide)).1,
   (C10_use_returns_normally ⟨[weatherTool]⟩ nopeUsage "f"
      (by intro t ht; rw [List.mem_singleton] at ht; subst ht; decide)).2
      (by intro t ht; rw [List.mem_singleton] at ht; subst ht; decide)⟩
